import Mathlib

/-!
Shallow embedding of the Task Prioritization & Insight Engine of the
Smarttask-app repository (src/Smarttask-app/smart-task-app.jsx).

Modelling conventions:
* Points in time are millisecond timestamps, embedded as `Int`; the
  JavaScript `Date.now()` value at the instant of a call is passed
  explicitly as a `now : Int` parameter (the engine is otherwise pure).
* JavaScript numbers are embedded as `Rat` (exact arithmetic standing in
  for IEEE doubles; the claims under study are about formula structure,
  ordering and counting, not float rounding).
* Optional fields (`deadline`, `estimatedTime`, `completedAt`) are
  `Option`s; `none` covers the JavaScript falsy absence (missing field or
  empty string).  JavaScript numeric truthiness (`0` is falsy, every other
  number truthy) is modelled explicitly where the source relies on it.
* `toDateString()` equality (same calendar date) is modelled as equality
  of the floor of the timestamp divided by one day in milliseconds.
* `Array.prototype.sort` with the comparator `scoreB - scoreA` is a stable
  sort by non-increasing score; it is embedded as `List.mergeSort` with the
  boolean relation `score b ≤ score a`, which is exactly a stable sort
  placing higher scores first.
-/

namespace SmartTask

/-- A task record as created and edited by the UI (fields used by the
engine).  `priority` is a raw string, as in the source, where unrecognized
values fall through to the default weight. -/
structure Task where
  id : String
  title : String
  priority : String
  deadline : Option Int
  estimatedTime : Option Rat
  completed : Bool
  createdAt : Int
  completedAt : Option Int
deriving Repr, DecidableEq

/-- `priorityScore[a.priority] || 1`: the lookup table `{high: 3, medium: 2,
low: 1}` with fallback `1` for any other value. -/
def priorityWeight (p : String) : Rat :=
  if p = "high" then 3 else if p = "medium" then 2 else 1

/-- `deadlineA === Infinity ? 0 : 1 / ((deadlineA - Date.now()) / 86400000 + 1)`:
urgency is `0` without a deadline, else the reciprocal of days-until-deadline
plus one. -/
def urgency (now : Int) (t : Task) : Rat :=
  match t.deadline with
  | none => 0
  | some d => 1 / (((d : Rat) - (now : Rat)) / 86400000 + 1)

/-- `(a.estimatedTime ? 1 / a.estimatedTime : 0)`: JavaScript truthiness
makes every nonzero number (negative ones included) take the `1/x` branch. -/
def efficiency (t : Task) : Rat :=
  match t.estimatedTime with
  | none => 0
  | some e => if e = 0 then 0 else 1 / e

/-- The composite score `pa * 0.4 + urgencyA * 0.4 + effA * 0.2` computed by
the comparator inside `AIEngine.suggestOrder`. -/
def score (now : Int) (t : Task) : Rat :=
  priorityWeight t.priority * (4/10) + urgency now t * (4/10) + efficiency t * (2/10)

/-- `AIEngine.suggestOrder`: `[...tasks].sort((a, b) => scoreB - scoreA)`,
a stable sort of the whole input by non-increasing score.  Note the source
applies no completed-filter here; its callers pass pre-filtered lists. -/
def suggestOrder (now : Int) (tasks : List Task) : List Task :=
  tasks.mergeSort (fun a b => score now b ≤ score now a)

/-- `Math.round`: round half away from zero toward `+∞` for the values the
engine feeds it; on reals `Math.round x = ⌊x + 0.5⌋`. -/
def jsRound (q : Rat) : Int := ⌊q + 1/2⌋

/-- The calendar date of a millisecond timestamp, modelling
`new Date(ms).toDateString()` equality: two timestamps have the same date
string exactly when they fall in the same day-sized bucket. -/
def jsDay (ms : Int) : Int := Int.fdiv ms 86400000

/-- `tasks.filter(t => t.deadline && new Date(t.deadline) < new Date() && !t.completed).length`:
the overdue count used by the first tip rule. -/
def overdueCount (now : Int) (tasks : List Task) : Nat :=
  (tasks.filter (fun t =>
    match t.deadline with
    | none => false
    | some d => decide (d < now) && !t.completed)).length

/-- `tasks.filter(t => t.priority === "high" && !t.completed).length`. -/
def highPendingCount (tasks : List Task) : Nat :=
  (tasks.filter (fun t => t.priority = "high" && !t.completed)).length

/-- The `completedToday` filter predicate: `if (!t.completedAt) return false;`
then `d.toDateString() === now.toDateString()`.  It never reads `t.completed`. -/
def completedTodayPred (now : Int) (t : Task) : Bool :=
  match t.completedAt with
  | none => false
  | some c => jsDay c = jsDay now

/-- `tasks.filter(t => ...completedAt today...).length` in the tip generator. -/
def completedTodayCount (now : Int) (tasks : List Task) : Nat :=
  (tasks.filter (completedTodayPred now)).length

/-- The first tip rule's message, `overdue` > 0. -/
def overdueMsg (n : Nat) : String :=
  "⚠️ You have " ++ toString n ++ " overdue task" ++ (if n > 1 then "s" else "") ++ ". Tackle them first!"

/-- The second tip rule's message, `highPending` > 2. -/
def highPendingMsg (n : Nat) : String :=
  "🔥 " ++ toString n ++ " high-priority tasks pending. Consider time-blocking your day."

/-- The third tip rule's message, `completedToday` ≥ 3. -/
def momentumMsg (n : Nat) : String :=
  "🎉 Great momentum! You\x27ve completed " ++ toString n ++ " tasks today."

/-- The fourth tip rule's message, no pending tasks. -/
def allClearMsg : String := "✨ All clear! Perfect time to plan ahead."

/-- The fallback tip. -/
def fallbackMsg : String := "💡 Try the 2-minute rule: if a task takes under 2 minutes, do it now."

/-- `AIEngine.getProductivityTip`: five rules evaluated in order, first
match returned. -/
def getProductivityTip (now : Int) (tasks : List Task) : String :=
  let overdue := overdueCount now tasks
  let highPending := highPendingCount tasks
  let completedToday := completedTodayCount now tasks
  if overdue > 0 then overdueMsg overdue
  else if highPending > 2 then highPendingMsg highPending
  else if completedToday ≥ 3 then momentumMsg completedToday
  else if (tasks.filter (fun t => !t.completed)).length = 0 then allClearMsg
  else fallbackMsg

/-- Alert kinds produced by `AIEngine.getNotifications` (`type` field). -/
inductive NotifKind where
  | overdue
  | urgent
  | soon
deriving Repr, DecidableEq

/-- One alert record `{task, type, msg}`. -/
structure Notification where
  task : Task
  kind : NotifKind
  msg : String
deriving Repr, DecidableEq

/-- The body of the `map` in `AIEngine.getNotifications`: classify one
(non-completed, deadline-bearing) task by `diff = (deadline - now) / 3600000`
hours; returns `none` (`null`) at 72 hours or more, and `none` without a
deadline (the source's filter guarantees a deadline before this runs). -/
def classify (now : Int) (t : Task) : Option Notification :=
  match t.deadline with
  | none => none
  | some dl =>
    let diff : Rat := ((dl : Rat) - (now : Rat)) / 3600000
    if diff < 0 then some ⟨t, .overdue, "\"" ++ t.title ++ "\" is overdue!"⟩
    else if diff < 24 then some ⟨t, .urgent, "\"" ++ t.title ++ "\" due in " ++ toString (jsRound diff) ++ "h"⟩
    else if diff < 72 then some ⟨t, .soon, "\"" ++ t.title ++ "\" due in " ++ toString (jsRound (diff / 24)) ++ "d"⟩
    else none

/-- `AIEngine.getNotifications`: filter to non-completed tasks with a
deadline, map through the classifier, drop the `null`s (`filter(Boolean)`). -/
def getNotifications (now : Int) (tasks : List Task) : List Notification :=
  (tasks.filter (fun t => !t.completed && t.deadline.isSome)).filterMap (classify now)

/-- One `{day, completed, added}` record of the completion trend. -/
structure TrendEntry where
  day : Int
  completed : Nat
  added : Nat
deriving Repr, DecidableEq

/-- The per-day completed count of the trend:
`tasks.filter(t => t.completedAt && new Date(t.completedAt).toDateString() === day).length`.
Like the tip generator's count, it never reads `t.completed`. -/
def trendCompletedCount (day : Int) (tasks : List Task) : Nat :=
  (tasks.filter (fun t =>
    match t.completedAt with
    | none => false
    | some c => jsDay c = day)).length

/-- The per-day added count: `new Date(t.createdAt).toDateString() === day`. -/
def trendAddedCount (day : Int) (tasks : List Task) : Nat :=
  (tasks.filter (fun t => jsDay t.createdAt = day)).length

/-- `completionTrend`: the seven calendar days ending today, oldest first;
the `day` label is modelled by the day bucket itself. -/
def completionTrend (now : Int) (tasks : List Task) : List TrendEntry :=
  ((List.range 7).map (fun i => jsDay now - (6 - (i : Int)))).map
    (fun day => ⟨day, trendCompletedCount day tasks, trendAddedCount day tasks⟩)

/-- One `{name, value, color}` bucket of the priority histogram. -/
structure PriorityBucket where
  name : String
  value : Nat
  color : String
deriving Repr, DecidableEq

/-- `byPriority`: three buckets counting tasks whose `priority` equals
`"high"`, `"medium"`, `"low"` respectively. -/
def byPriority (tasks : List Task) : List PriorityBucket :=
  [ ⟨"High", (tasks.filter (fun t => t.priority = "high")).length, "#ef4444"⟩,
    ⟨"Medium", (tasks.filter (fun t => t.priority = "medium")).length, "#f59e0b"⟩,
    ⟨"Low", (tasks.filter (fun t => t.priority = "low")).length, "#10b981"⟩ ]

/-- The result record of `getAnalytics`. -/
structure Analytics where
  completionTrend : List TrendEntry
  byPriority : List PriorityBucket
  total : Nat
  completed : Nat
  rate : Int
deriving Repr, DecidableEq

/-- `const rate = total ? Math.round((completed / total) * 100) : 0`. -/
def rateOf (completed total : Nat) : Int :=
  if total = 0 then 0 else jsRound (((completed : Rat) / (total : Rat)) * 100)

/-- `getAnalytics`: 7-day trend, priority histogram, totals and rounded
completion rate. -/
def getAnalytics (now : Int) (tasks : List Task) : Analytics :=
  let total := tasks.length
  let completed := (tasks.filter (fun t => t.completed)).length
  ⟨completionTrend now tasks, byPriority tasks, total, completed, rateOf completed total⟩

/-- A base task record used to build concrete inputs for witnesses and
counterexamples. -/
def baseTask : Task :=
  ⟨"t0", "Base", "low", none, none, false, 0, none⟩

/-- A task with an unrecognized priority, a deadline exactly one day away,
and a negative time estimate, exercising every default branch of the score. -/
def oddTask : Task := { baseTask with
  priority := "URGENT"
  deadline := some 86400000
  estimatedTime := some (-4) }

/-- A collection with one overdue task and four pending high-priority tasks:
both the first and the second tip rule match. -/
def tipTasks : List Task :=
  [ { baseTask with priority := "high", deadline := some (-100) },
    { baseTask with id := "t2", priority := "high" },
    { baseTask with id := "t3", priority := "high" },
    { baseTask with id := "t4", priority := "high" } ]

/-- A task not flagged completed but carrying a `completedAt` stamp inside
the current day. -/
def doneTodayTask : Task := { baseTask with completed := false, completedAt := some 1000 }

/-- A task flagged completed but carrying no `completedAt` stamp. -/
def ghostDoneTask : Task := { baseTask with completed := true, completedAt := none }

end SmartTask

namespace SmartTask

/-- The comparator relation used by `suggestOrder` is transitive. -/
theorem sortLe_trans (now : Int) : ∀ a b c : Task,
    (score now b ≤ score now a : Bool) → (score now c ≤ score now b : Bool) →
    (score now c ≤ score now a : Bool) := by
  intro a b c hab hbc
  simp only [decide_eq_true_eq] at hab hbc ⊢
  exact le_trans hbc hab

/-- The comparator relation used by `suggestOrder` is total. -/
theorem sortLe_total (now : Int) : ∀ a b : Task,
    ((score now b ≤ score now a : Bool) || (score now a ≤ score now b : Bool)) := by
  intro a b
  rcases le_total (score now b) (score now a) with h | h <;> simp [h]

/-- C1 counterexample: `AIEngine.suggestOrder` applies no completed-filter;
a collection consisting of a single completed task is returned unchanged,
so the output does not contain only non-completed tasks. -/
theorem suggestOrder_keeps_completed_cex :
    ({ baseTask with completed := true } : Task).completed = true ∧
    suggestOrder 0 [{ baseTask with completed := true }] =
      [{ baseTask with completed := true }] := by
  refine ⟨rfl, ?_⟩
  simp [suggestOrder]

/-- C1 (amended): `AIEngine.suggestOrder` returns a permutation of its whole
input (every input task, completed ones included, appears exactly once),
ordered by non-increasing composite score; the exclusion of completed tasks
is performed by its callers, not by the function itself. -/
theorem suggestOrder_perm_sorted (now : Int) (ts : List Task) :
    (suggestOrder now ts).Perm ts ∧
    (suggestOrder now ts).Pairwise (fun a b => score now b ≤ score now a) := by
  constructor
  · exact List.mergeSort_perm ts _
  · have h := List.sorted_mergeSort (sortLe_trans now) (sortLe_total now) ts
    exact h.imp (fun hab => by simpa using hab)

/-- C6: ranking is idempotent at a fixed time snapshot: feeding the ranked
output back into `AIEngine.suggestOrder` with the same `now` returns it
unchanged, so repeated calls on the unchanged snapshot all produce the same
sequence. -/
theorem suggestOrder_idempotent (now : Int) (ts : List Task) :
    suggestOrder now (suggestOrder now ts) = suggestOrder now ts :=
  List.mergeSort_of_sorted
    (List.sorted_mergeSort (sortLe_trans now) (sortLe_total now) ts)

/-- C2 counterexample: the claim's efficiency clause ("0 unless
estimatedTime > 0") fails on a task with `estimatedTime = -1`: JavaScript
truthiness sends every nonzero number through the `1/x` branch, so the score
differs from the value the claim prescribes (which would use efficiency 0). -/
theorem score_negative_estimate_cex :
    ({ baseTask with estimatedTime := some (-1) } : Task).estimatedTime = some (-1) ∧
    ¬ ((0 : Rat) < -1) ∧
    score 0 { baseTask with estimatedTime := some (-1) } ≠
      priorityWeight ({ baseTask with estimatedTime := some (-1) } : Task).priority * (4/10)
        + urgency 0 { baseTask with estimatedTime := some (-1) } * (4/10)
        + 0 * (2/10) := by
  refine ⟨rfl, by norm_num, ?_⟩
  simp only [score, priorityWeight, urgency, efficiency, baseTask]
  norm_num

/-- C2 (amended): the composite score is
`priorityWeight × 0.4 + urgency × 0.4 + efficiency × 0.2`, with
priorityWeight 3/2/1 for high/medium/other, urgency 0 without a deadline and
`1/(daysUntilDeadline + 1)` with one, and efficiency `1/estimatedTime` for
every present nonzero `estimatedTime` (negative values included) and 0 only
when `estimatedTime` is missing or zero. -/
theorem score_formula (now : Int) (t : Task) :
    score now t = priorityWeight t.priority * (4/10) + urgency now t * (4/10)
        + efficiency t * (2/10)
    ∧ (t.priority = "high" → priorityWeight t.priority = 3)
    ∧ (t.priority = "medium" → priorityWeight t.priority = 2)
    ∧ (t.priority ≠ "high" → t.priority ≠ "medium" → priorityWeight t.priority = 1)
    ∧ (t.deadline = none → urgency now t = 0)
    ∧ (∀ d : Int, t.deadline = some d →
        urgency now t = 1 / (((d : Rat) - (now : Rat)) / 86400000 + 1))
    ∧ (t.estimatedTime = none → efficiency t = 0)
    ∧ (t.estimatedTime = some 0 → efficiency t = 0)
    ∧ (∀ e : Rat, t.estimatedTime = some e → e ≠ 0 → efficiency t = 1 / e) := by
  refine ⟨rfl, ?_, ?_, ?_, ?_, ?_, ?_, ?_, ?_⟩
  · intro h; simp [priorityWeight, h]
  · intro h; simp [priorityWeight, h]
  · intro h1 h2; simp [priorityWeight, h1, h2]
  · intro h; simp [urgency, h]
  · intro d h; simp [urgency, h]
  · intro h; simp [efficiency, h]
  · intro h; simp [efficiency, h]
  · intro e h he; simp [efficiency, h, he]

/-- Witness for C2's amended formula: `oddTask` gets weight 1, urgency
`1/2`, and efficiency `-1/4`. -/
theorem score_formula_witness :
    priorityWeight oddTask.priority = 1 ∧
    urgency 0 oddTask = 1/2 ∧
    efficiency oddTask = -(1/4) := by
  obtain ⟨-, -, -, hp, -, hd, -, -, he⟩ := score_formula 0 oddTask
  refine ⟨hp (by decide) (by decide), ?_, ?_⟩
  · rw [hd 86400000 rfl]; norm_num
  · rw [he (-4) rfl (by norm_num)]; norm_num

/-- C5 counterexample: a task with `estimatedTime = -5` contributes the
nonzero efficiency term `1/(-5)`, not 0 as the claim states. -/
theorem efficiency_negative_scored_cex :
    ({ baseTask with estimatedTime := some (-5) } : Task).estimatedTime = some (-5) ∧
    efficiency { baseTask with estimatedTime := some (-5) } ≠ 0 := by
  refine ⟨rfl, ?_⟩
  simp only [efficiency]
  norm_num

/-- C5 (amended): the efficiency term is 0 when `estimatedTime` is missing
or zero, but a negative `estimatedTime` IS silently scored: it contributes
the negative term `1/estimatedTime`. -/
theorem efficiency_term (t : Task) :
    (t.estimatedTime = none → efficiency t = 0) ∧
    (t.estimatedTime = some 0 → efficiency t = 0) ∧
    (∀ e : Rat, t.estimatedTime = some e → e < 0 →
        efficiency t = 1 / e ∧ efficiency t < 0) := by
  refine ⟨fun h => by simp [efficiency, h], fun h => by simp [efficiency, h], ?_⟩
  intro e h he
  have hne : e ≠ 0 := ne_of_lt he
  constructor
  · simp [efficiency, h, hne]
  · simp only [efficiency, h, hne, if_neg hne]
    exact one_div_neg.mpr he

/-- Witness for C5's amended statement at `estimatedTime = -2`. -/
theorem efficiency_term_witness :
    efficiency { baseTask with estimatedTime := some (-2) } = 1 / (-2) ∧
    efficiency { baseTask with estimatedTime := some (-2) } < 0 :=
  (efficiency_term { baseTask with estimatedTime := some (-2) }).2.2 (-2) rfl (by norm_num)

/-- `⌊q + 1/2⌋ = z` from the two bracketing inequalities. -/
theorem jsRound_eq (q : Rat) (z : Int) (h1 : (z : Rat) ≤ q + 1/2) (h2 : q + 1/2 < z + 1) :
    jsRound q = z := by
  unfold jsRound
  rw [Int.floor_eq_iff]
  exact ⟨h1, by exact_mod_cast h2⟩

/-- C3: for a non-completed task with a deadline, the alert is a function of
`hoursUntilDeadline = (deadline - now) / 3600000` with half-open boundaries:
strictly negative hours give `overdue`, `[0, 24)` gives `urgent`, `[24, 72)`
gives `soon`, and `72` hours or more produce no alert; the four ranges
partition the line, so exactly one outcome applies; completed tasks and
tasks without a deadline never produce an alert. -/
theorem getNotifications_classification (now : Int) (t : Task) :
    (t.completed = true → getNotifications now [t] = []) ∧
    (t.deadline = none → getNotifications now [t] = []) ∧
    (∀ dl : Int, t.completed = false → t.deadline = some dl →
      ((((dl : Rat) - (now : Rat)) / 3600000 < 0 →
          getNotifications now [t] =
            [⟨t, .overdue, "\"" ++ t.title ++ "\" is overdue!"⟩]) ∧
       (0 ≤ ((dl : Rat) - (now : Rat)) / 3600000 →
          ((dl : Rat) - (now : Rat)) / 3600000 < 24 →
          getNotifications now [t] =
            [⟨t, .urgent, "\"" ++ t.title ++ "\" due in "
                ++ toString (jsRound (((dl : Rat) - (now : Rat)) / 3600000)) ++ "h"⟩]) ∧
       (24 ≤ ((dl : Rat) - (now : Rat)) / 3600000 →
          ((dl : Rat) - (now : Rat)) / 3600000 < 72 →
          getNotifications now [t] =
            [⟨t, .soon, "\"" ++ t.title ++ "\" due in "
                ++ toString (jsRound (((dl : Rat) - (now : Rat)) / 3600000 / 24)) ++ "d"⟩]) ∧
       (72 ≤ ((dl : Rat) - (now : Rat)) / 3600000 →
          getNotifications now [t] = []))) := by
  refine ⟨?_, ?_, ?_⟩
  · intro h; simp [getNotifications, h]
  · intro h; simp [getNotifications, h]
  · intro dl hc hd
    refine ⟨?_, ?_, ?_, ?_⟩
    · intro h
      simp [getNotifications, hc, hd, classify, h]
    · intro h0 h24
      simp [getNotifications, hc, hd, classify, not_lt.mpr h0, h24]
    · intro h24 h72
      have h0 : ¬ ((dl : Rat) - (now : Rat)) / 3600000 < 0 :=
        not_lt.mpr (le_trans (by norm_num) h24)
      simp [getNotifications, hc, hd, classify, h0, not_lt.mpr h24, h72]
    · intro h
      have h0 : ¬ ((dl : Rat) - (now : Rat)) / 3600000 < 0 :=
        not_lt.mpr (le_trans (by norm_num) h)
      have h24 : ¬ ((dl : Rat) - (now : Rat)) / 3600000 < 24 :=
        not_lt.mpr (le_trans (by norm_num) h)
      simp [getNotifications, hc, hd, classify, h0, h24, not_lt.mpr h]

/-- Witness for C3: a task due in exactly one hour is classified `urgent`
with the message naming one rounded hour. -/
theorem getNotifications_classification_witness :
    getNotifications 0 [{ baseTask with deadline := some 3600000 }] =
      [⟨{ baseTask with deadline := some 3600000 }, .urgent, "\"Base\" due in 1h"⟩] := by
  have h := ((getNotifications_classification 0
      { baseTask with deadline := some 3600000 }).2.2 3600000 rfl rfl).2.1
    (by norm_num) (by norm_num)
  rw [h]
  have hr : jsRound ((((3600000 : Int) : Rat) - ((0 : Int) : Rat)) / 3600000) = 1 := by
    apply jsRound_eq <;> norm_num
  rw [hr]
  rfl

/-- Each alert produced by the classifier carries the task it was produced
from. -/
theorem classify_task_eq (now : Int) (t : Task) (n : Notification)
    (h : classify now t = some n) : n.task = t := by
  unfold classify at h
  cases hd : t.deadline with
  | none => rw [hd] at h; simp at h
  | some dl =>
    rw [hd] at h
    simp only at h
    split_ifs at h with h1 h2 h3
    · cases Option.some.inj h; rfl
    · cases Option.some.inj h; rfl
    · cases Option.some.inj h; rfl

/-- The tasks carried by a classified batch are exactly the tasks the
classifier accepts, kept in input order. -/
theorem map_task_filterMap (now : Int) : ∀ l : List Task,
    (l.filterMap (classify now)).map Notification.task =
      l.filter (fun t => (classify now t).isSome)
  | [] => rfl
  | t :: l => by
    cases h : classify now t with
    | none => simp [List.filterMap_cons, h, List.filter_cons, map_task_filterMap now l]
    | some n =>
      simp [List.filterMap_cons, h, List.filter_cons, map_task_filterMap now l,
        classify_task_eq now t n h]

/-- A string of positive length is not the empty string. -/
theorem str_ne_empty (s : String) (h : 0 < s.length) : s ≠ "" := by
  intro he
  subst he
  exact absurd h (by decide)

/-- Every tip message has positive length, whatever counts it reports. -/
theorem tip_msgs_pos (n : Nat) :
    0 < (overdueMsg n).length ∧ 0 < (highPendingMsg n).length ∧
    0 < (momentumMsg n).length ∧ 0 < allClearMsg.length ∧ 0 < fallbackMsg.length := by
  have h1 : 0 < ("⚠️ You have " : String).length := by decide
  have h2 : 0 < ("🔥 " : String).length := by decide
  have h3 : 0 < ("🎉 Great momentum! You\x27ve completed " : String).length := by decide
  refine ⟨?_, ?_, ?_, by decide, by decide⟩
  · unfold overdueMsg; simp only [String.length_append]; omega
  · unfold highPendingMsg; simp only [String.length_append]; omega
  · unfold momentumMsg; simp only [String.length_append]; omega

/-- C4: the tip generator always returns a non-empty string, and the five
rules fire in their fixed order: whenever the overdue rule matches (at least
one non-completed task with a deadline strictly before now), its message is
returned even if the high-priority backlog rule also matches. -/
theorem getProductivityTip_spec (now : Int) (ts : List Task) :
    getProductivityTip now ts ≠ "" ∧
    (0 < overdueCount now ts → 2 < highPendingCount ts →
        getProductivityTip now ts = overdueMsg (overdueCount now ts)) := by
  constructor
  · simp only [getProductivityTip]
    obtain ⟨h1, h2, h3, h4, h5⟩ := tip_msgs_pos (overdueCount now ts)
    obtain ⟨-, h2', h3', -, -⟩ := tip_msgs_pos (highPendingCount ts)
    obtain ⟨-, -, h3'', -, -⟩ := tip_msgs_pos (completedTodayCount now ts)
    split_ifs
    · exact str_ne_empty _ h1
    · exact str_ne_empty _ h2'
    · exact str_ne_empty _ h3''
    · exact str_ne_empty _ h4
    · exact str_ne_empty _ h5
  · intro h1 _
    simp only [getProductivityTip]
    rw [if_pos h1]

/-- Witness for C4 on `tipTasks`: the overdue and backlog rules both match
and the overdue message wins. -/
theorem getProductivityTip_spec_witness :
    getProductivityTip 0 tipTasks = overdueMsg 1 := by
  have h := (getProductivityTip_spec 0 tipTasks).2 (by decide) (by decide)
  rw [h]
  rfl

/-- C7: the alert sequence preserves the relative order of the input: the
tasks underlying `getNotifications` are the input filtered in place (first
to non-completed deadline-bearing tasks, then to those within 72 hours), and
in particular they form a sublist of the input sequence — no re-sorting by
urgency happens. -/
theorem getNotifications_order_preserving (now : Int) (ts : List Task) :
    (getNotifications now ts).map Notification.task =
      (ts.filter (fun t => !t.completed && t.deadline.isSome)).filter
        (fun t => (classify now t).isSome) ∧
    ((getNotifications now ts).map Notification.task).Sublist ts := by
  have h := map_task_filterMap now (ts.filter (fun t => !t.completed && t.deadline.isSome))
  refine ⟨h, ?_⟩
  rw [getNotifications, h]
  exact (List.filter_sublist _).trans (List.filter_sublist _)

/-- The rounded rate is never negative. -/
theorem rateOf_nonneg (c n : Nat) : 0 ≤ rateOf c n := by
  unfold rateOf jsRound
  split_ifs
  · exact le_refl 0
  · apply Int.le_floor.mpr
    push_cast
    positivity

/-- The rounded rate never exceeds 100 when at most `n` of `n` tasks are
completed. -/
theorem rateOf_le_100 (c n : Nat) (h : c ≤ n) : rateOf c n ≤ 100 := by
  unfold rateOf jsRound
  split_ifs with h0
  · norm_num
  · have hn : (0 : Rat) < (n : Rat) := by
      exact_mod_cast Nat.pos_of_ne_zero h0
    have hd : (c : Rat) / (n : Rat) ≤ 1 := (div_le_one hn).mpr (by exact_mod_cast h)
    have harg : (c : Rat) / (n : Rat) * 100 + 1/2 < ((101 : Int) : Rat) := by
      push_cast
      nlinarith
    have := Int.floor_lt.mpr harg
    omega

/-- When every task is completed the rounded rate is exactly 100. -/
theorem rateOf_full (n : Nat) (h : n ≠ 0) : rateOf n n = 100 := by
  unfold rateOf jsRound
  rw [if_neg h]
  have hn : ((n : Rat)) ≠ 0 := by
    exact_mod_cast h
  rw [div_self hn]
  norm_num [Int.floor_eq_iff]

/-- C8: `getAnalytics` reports `total` as the task count, `completed` as the
count of tasks with `completed = true`, and `rate` as the integer
`round(completed/total × 100)` guarded to 0 on an empty collection; the rate
always lies in `[0, 100]` and is 100 when everything is completed. -/
theorem getAnalytics_totals (now : Int) (ts : List Task) :
    (getAnalytics now ts).total = ts.length ∧
    (getAnalytics now ts).completed = (ts.filter (fun t => t.completed)).length ∧
    (ts.length = 0 → (getAnalytics now ts).rate = 0) ∧
    0 ≤ (getAnalytics now ts).rate ∧
    (getAnalytics now ts).rate ≤ 100 ∧
    (0 < ts.length →
        (getAnalytics now ts).rate =
          jsRound (((ts.filter (fun t => t.completed)).length : Rat) / (ts.length : Rat) * 100)) ∧
    (0 < ts.length → (ts.filter (fun t => t.completed)).length = ts.length →
        (getAnalytics now ts).rate = 100) := by
  have hle : (ts.filter (fun t => t.completed)).length ≤ ts.length :=
    List.length_filter_le _ _
  refine ⟨rfl, rfl, ?_, rateOf_nonneg _ _, rateOf_le_100 _ _ hle, ?_, ?_⟩
  · intro h
    simp [getAnalytics, rateOf, h]
  · intro h
    simp only [getAnalytics, rateOf]
    rw [if_neg (Nat.pos_iff_ne_zero.mp h)]
  · intro h hfull
    simp only [getAnalytics]
    rw [hfull]
    exact rateOf_full _ (Nat.pos_iff_ne_zero.mp h)

/-- Witness for C8: one task, completed: the rate is 100; and the empty
collection has rate 0. -/
theorem getAnalytics_totals_witness :
    (getAnalytics 0 [{ baseTask with completed := true }]).rate = 100 ∧
    (getAnalytics 0 ([] : List Task)).rate = 0 :=
  ⟨(getAnalytics_totals 0 [{ baseTask with completed := true }]).2.2.2.2.2.2
      (by decide) (by decide),
   (getAnalytics_totals 0 ([] : List Task)).2.2.1 (by decide)⟩

/-- The three bucket counts of the histogram never exceed the task count. -/
theorem prio_sum_le (ts : List Task) :
    (ts.filter (fun t => t.priority = "high")).length
      + (ts.filter (fun t => t.priority = "medium")).length
      + (ts.filter (fun t => t.priority = "low")).length ≤ ts.length := by
  induction ts with
  | nil => simp
  | cons t ts ih =>
    by_cases h1 : t.priority = "high"
    · have h2 : ¬ t.priority = "medium" := by rw [h1]; decide
      have h3 : ¬ t.priority = "low" := by rw [h1]; decide
      simp [List.filter_cons, h1, h2, h3]
      omega
    · by_cases h2 : t.priority = "medium"
      · have h3 : ¬ t.priority = "low" := by rw [h2]; decide
        simp [List.filter_cons, h1, h2, h3]
        omega
      · by_cases h3 : t.priority = "low"
        · simp [List.filter_cons, h1, h2, h3]
          omega
        · simp [List.filter_cons, h1, h2, h3]
          omega

/-- When every priority is recognized the three buckets cover the whole
collection. -/
theorem prio_sum_eq (ts : List Task)
    (h : ∀ t ∈ ts, t.priority = "high" ∨ t.priority = "medium" ∨ t.priority = "low") :
    (ts.filter (fun t => t.priority = "high")).length
      + (ts.filter (fun t => t.priority = "medium")).length
      + (ts.filter (fun t => t.priority = "low")).length = ts.length := by
  induction ts with
  | nil => simp
  | cons t ts ih =>
    have ht := h t (List.mem_cons_self t ts)
    have hrest : ∀ x ∈ ts, x.priority = "high" ∨ x.priority = "medium" ∨ x.priority = "low" :=
      fun x hx => h x (List.mem_cons_of_mem t hx)
    have ihr := ih hrest
    rcases ht with h1 | h2 | h3
    · have h2 : ¬ t.priority = "medium" := by rw [h1]; decide
      have h3 : ¬ t.priority = "low" := by rw [h1]; decide
      simp [List.filter_cons, h1, h2, h3]
      omega
    · have h1 : ¬ t.priority = "high" := by rw [h2]; decide
      have h3 : ¬ t.priority = "low" := by rw [h2]; decide
      simp [List.filter_cons, h1, h2, h3]
      omega
    · have h1 : ¬ t.priority = "high" := by rw [h3]; decide
      have h2 : ¬ t.priority = "medium" := by rw [h3]; decide
      simp [List.filter_cons, h1, h2, h3]
      omega

/-- C9: the analytics histogram has exactly the three buckets high, medium,
low, whose values count exactly the tasks carrying those priority strings;
a task with any other priority lands in no bucket, so the values sum to at
most `total`, with equality when every priority is recognized. -/
theorem byPriority_buckets (now : Int) (ts : List Task) :
    ((getAnalytics now ts).byPriority).length = 3 ∧
    ((getAnalytics now ts).byPriority).map PriorityBucket.name = ["High", "Medium", "Low"] ∧
    ((getAnalytics now ts).byPriority).map PriorityBucket.value =
      [(ts.filter (fun t => t.priority = "high")).length,
       (ts.filter (fun t => t.priority = "medium")).length,
       (ts.filter (fun t => t.priority = "low")).length] ∧
    (((getAnalytics now ts).byPriority).map PriorityBucket.value).sum ≤
      (getAnalytics now ts).total ∧
    ((∀ t ∈ ts, t.priority = "high" ∨ t.priority = "medium" ∨ t.priority = "low") →
      (((getAnalytics now ts).byPriority).map PriorityBucket.value).sum =
        (getAnalytics now ts).total) := by
  refine ⟨rfl, rfl, rfl, ?_, ?_⟩
  · have h0 := prio_sum_le ts
    simp only [getAnalytics, byPriority, List.map_cons, List.map_nil, List.sum_cons,
      List.sum_nil]
    omega
  · intro h
    have h0 := prio_sum_eq ts h
    simp only [getAnalytics, byPriority, List.map_cons, List.map_nil, List.sum_cons,
      List.sum_nil]
    omega

/-- Witness for C9: on a two-task collection with recognized priorities the
bucket values sum to the total. -/
theorem byPriority_buckets_witness :
    (((getAnalytics 0 [{ baseTask with priority := "high" }, baseTask]).byPriority).map
        PriorityBucket.value).sum =
      (getAnalytics 0 [{ baseTask with priority := "high" }, baseTask]).total :=
  (byPriority_buckets 0 [{ baseTask with priority := "high" }, baseTask]).2.2.2.2
    (by decide)

/-- C10: the tip generator's completed-today count and the analytics trend's
per-day completed count are functions of `completedAt` alone: flipping a
task's `completed` flag never changes either count; a task whose
`completedAt` falls on the reference day is counted (even with
`completed = false`, as in conjunct three applied to any flag value), and a
task without `completedAt` is never counted (even with `completed = true`). -/
theorem completedToday_ignores_flag (now day : Int) (t : Task) (b : Bool) (ts : List Task) :
    completedTodayCount now ({ t with completed := b } :: ts) =
      completedTodayCount now (t :: ts) ∧
    trendCompletedCount day ({ t with completed := b } :: ts) =
      trendCompletedCount day (t :: ts) ∧
    (∀ c : Int, t.completedAt = some c → jsDay c = jsDay now →
        completedTodayCount now (t :: ts) = completedTodayCount now ts + 1) ∧
    (∀ c : Int, t.completedAt = some c → jsDay c = day →
        trendCompletedCount day (t :: ts) = trendCompletedCount day ts + 1) ∧
    (t.completedAt = none →
        completedTodayCount now (t :: ts) = completedTodayCount now ts ∧
        trendCompletedCount day (t :: ts) = trendCompletedCount day ts) := by
  refine ⟨?_, ?_, ?_, ?_, ?_⟩
  · cases hc : t.completedAt with
    | none => simp [completedTodayCount, completedTodayPred, List.filter_cons, hc]
    | some c =>
      simp only [completedTodayCount, completedTodayPred, List.filter_cons, hc]
      split_ifs <;> simp
  · cases hc : t.completedAt with
    | none => simp [trendCompletedCount, List.filter_cons, hc]
    | some c =>
      simp only [trendCompletedCount, List.filter_cons, hc]
      split_ifs <;> simp
  · intro c hc hd
    simp [completedTodayCount, completedTodayPred, List.filter_cons, hc, hd]
  · intro c hc hd
    simp [trendCompletedCount, List.filter_cons, hc, hd]
  · intro hc
    constructor
    · simp [completedTodayCount, completedTodayPred, List.filter_cons, hc]
    · simp [trendCompletedCount, List.filter_cons, hc]

/-- Witness for C10: `doneTodayTask` (not flagged completed, stamped within
today) is counted by both counts; `ghostDoneTask` (flagged completed, no
stamp) is counted by neither. -/
theorem completedToday_ignores_flag_witness :
    completedTodayCount 0 [doneTodayTask] = completedTodayCount 0 [] + 1 ∧
    trendCompletedCount 0 [doneTodayTask] = trendCompletedCount 0 [] + 1 ∧
    completedTodayCount 0 [ghostDoneTask] = completedTodayCount 0 [] ∧
    trendCompletedCount 0 [ghostDoneTask] = trendCompletedCount 0 [] := by
  obtain ⟨-, -, h3, h4, -⟩ := completedToday_ignores_flag 0 0 doneTodayTask false []
  obtain ⟨-, -, -, -, h5⟩ := completedToday_ignores_flag 0 0 ghostDoneTask false []
  exact ⟨h3 1000 rfl (by decide), h4 1000 rfl (by decide), (h5 rfl).1, (h5 rfl).2⟩

end SmartTask
